import Mathlib

/-!
Shallow embedding of the annotation-editing engine of the pdfleyer
DrawingCanvas component: the data model, the geometry utilities, the
annotation factory and the pointer/keyboard interaction handlers, together
with theorems about them.  Pixel coordinates are modelled by rationals;
the millisecond clock readings that the component obtains from the host
environment are passed in as explicit natural-number arguments.
-/

namespace Pdfleyer

/-- A point in surface-local pixel coordinates (source interface Point). -/
structure Point where
  x : ℚ
  y : ℚ
deriving DecidableEq, Repr

/-- An axis-aligned bounding box, top-left corner plus width and height
(source field bbox). -/
structure Bbox where
  x : ℚ
  y : ℚ
  w : ℚ
  h : ℚ
deriving DecidableEq, Repr

/-- The five drawing tools; the null tool of the source ToolType is
modelled by none of Option Tool. -/
inductive Tool
  | rect
  | circle
  | line
  | freehand
  | text
deriving DecidableEq, Repr

/-- The nullable tool type of the source. -/
abbrev ToolType := Option Tool

/-- Annotation kinds (source union rect, circle, line, path, text). -/
inductive AnnType
  | rect
  | circle
  | line
  | path
  | text
deriving DecidableEq, Repr

/-- Shape-specific attributes.  The source stores them as an open string
map; here they are a tagged variant whose constructor matches the kind of
a well-formed annotation: rect and circle carry only color and stroke
width, line carries its two absolute endpoints, path its point sequence,
text its content, font size and color. -/
inductive Attrs
  | shape (color : String) (strokeWidth : ℚ)
  | lineAttrs (color : String) (strokeWidth : ℚ) (startX startY endX endY : ℚ)
  | pathAttrs (color : String) (strokeWidth : ℚ) (points : List Point)
  | textAttrs (content : String) (fontSize : ℚ) (color : String)
deriving DecidableEq, Repr

/-- The persisted annotation record.  Both the id timestamp and createdAt
come from the host clock, passed in explicitly; updatedAt is declared by
the source interface but never written by this component. -/
structure Annotation where
  id : String
  type : AnnType
  page : Nat
  bbox : Bbox
  attributes : Attrs
  createdAt : Nat
  updatedAt : Option Nat := none
deriving DecidableEq, Repr

/-- The id string built from a millisecond clock reading
(source template literal ann-timestamp). -/
def annId (timestampMs : Nat) : String :=
  "ann-" ++ toString timestampMs

/-- The default stroke color of created annotations. -/
def baseColor : String := "#FF0000"

/-- Whitespace characters removed by the host-language string trim; the
set is restricted to the common ASCII whitespace and no-break space
characters, which is all the trim guard of the text entry needs. -/
def jsWhitespace : List Char :=
  [' ', '\t', '\n', '\r', '\x0b', '\x0c', '\u00a0']

/-- The host-language string trim (String.prototype.trim), modelled
directly on the character list of the string. -/
def jsTrim (s : String) : String :=
  String.mk
    (((s.data.dropWhile (fun c => jsWhitespace.contains c)).reverse.dropWhile
        (fun c => jsWhitespace.contains c)).reverse)

/-- The bbox derived from the two endpoints of a drag, shared by the rect,
circle and line branches of the factory. -/
def dragBbox (start endP : Point) : Bbox :=
  { x := min start.x endP.x
    y := min start.y endP.y
    w := |endP.x - start.x|
    h := |endP.y - start.y| }

/-- The annotation factory (source function createAnnotation): converts a
completed gesture into an annotation, or none when the tool is null, the
tool is text, or a freehand gesture accumulated no points. -/
def createAnnotation (tool : ToolType) (start endP : Point)
    (points : List Point) (page : Nat) (timestampMs : Nat) :
    Option Annotation :=
  match tool with
  | none => none
  | some Tool.rect =>
      some { id := annId timestampMs, type := AnnType.rect, page := page
             bbox := dragBbox start endP
             attributes := Attrs.shape baseColor 3, createdAt := timestampMs }
  | some Tool.circle =>
      some { id := annId timestampMs, type := AnnType.circle, page := page
             bbox := dragBbox start endP
             attributes := Attrs.shape baseColor 3, createdAt := timestampMs }
  | some Tool.line =>
      some { id := annId timestampMs, type := AnnType.line, page := page
             bbox := dragBbox start endP
             attributes :=
               Attrs.lineAttrs baseColor 3 start.x start.y endP.x endP.y
             createdAt := timestampMs }
  | some Tool.freehand =>
      match points with
      | [] => none
      | p :: ps =>
          let xlo := ps.foldl (fun a q => min a q.x) p.x
          let ylo := ps.foldl (fun a q => min a q.y) p.y
          let xhi := ps.foldl (fun a q => max a q.x) p.x
          let yhi := ps.foldl (fun a q => max a q.y) p.y
          some { id := annId timestampMs, type := AnnType.path, page := page
                 bbox := { x := xlo, y := ylo, w := xhi - xlo, h := yhi - ylo }
                 attributes := Attrs.pathAttrs baseColor 3 (p :: ps)
                 createdAt := timestampMs }
  | some Tool.text => none

/-- Inclusive point-in-box test (source function isPointInBbox). -/
def isPointInBbox (point : Point) (bbox : Bbox) : Bool :=
  decide (bbox.x ≤ point.x) && decide (point.x ≤ bbox.x + bbox.w) &&
  decide (bbox.y ≤ point.y) && decide (point.y ≤ bbox.y + bbox.h)

/-- The eight resize handles of a selected annotation. -/
inductive ResizeHandle
  | nw
  | ne
  | sw
  | se
  | n
  | s
  | e
  | w
deriving DecidableEq, Repr

/-- Position of each handle on a bbox (source object literal handles). -/
def handlePos (b : Bbox) : ResizeHandle → Point
  | ResizeHandle.nw => { x := b.x, y := b.y }
  | ResizeHandle.ne => { x := b.x + b.w, y := b.y }
  | ResizeHandle.sw => { x := b.x, y := b.y + b.h }
  | ResizeHandle.se => { x := b.x + b.w, y := b.y + b.h }
  | ResizeHandle.n => { x := b.x + b.w / 2, y := b.y }
  | ResizeHandle.s => { x := b.x + b.w / 2, y := b.y + b.h }
  | ResizeHandle.e => { x := b.x + b.w, y := b.y + b.h / 2 }
  | ResizeHandle.w => { x := b.x, y := b.y + b.h / 2 }

/-- Square tolerance test around one handle center, tolerance 8 px
(source constant handleSize in getResizeHandleAtPoint). -/
def handleHit (point hp : Point) : Bool :=
  decide (|point.x - hp.x| ≤ 8) && decide (|point.y - hp.y| ≤ 8)

/-- Enumeration order of the handle object entries in the source. -/
def handleOrder : List ResizeHandle :=
  [ResizeHandle.nw, ResizeHandle.ne, ResizeHandle.sw, ResizeHandle.se,
   ResizeHandle.n, ResizeHandle.s, ResizeHandle.e, ResizeHandle.w]

/-- First handle of the selected bbox hit by the point, if any
(source function getResizeHandleAtPoint). -/
def getResizeHandleAtPoint (point : Point) (bbox : Bbox) :
    Option ResizeHandle :=
  handleOrder.find? (fun k => handleHit point (handlePos bbox k))

/-- The mutable component state of the DrawingCanvas (the useState hooks
of the source, in declaration order). -/
structure CanvasState where
  isDrawing : Bool
  startPoint : Option Point
  currentPoint : Option Point
  pathPoints : List Point
  showTextInput : Bool
  textPosition : Option Point
  textValue : String
  storedAnnotations : List Annotation
  selectedAnnotationId : Option String
  isMoving : Bool
  isResizing : Bool
  resizeHandle : Option ResizeHandle
  moveStartPoint : Option Point
deriving DecidableEq, Repr

/-- The initial component state. -/
def initialState : CanvasState :=
  { isDrawing := false, startPoint := none, currentPoint := none
    pathPoints := [], showTextInput := false, textPosition := none
    textValue := "", storedAnnotations := [], selectedAnnotationId := none
    isMoving := false, isResizing := false, resizeHandle := none
    moveStartPoint := none }

/-- The topmost-first selection scan of handleMouseDown: walk the stored
collection from the most recently created annotation down, select the
first one whose bbox contains the point, and deselect when none does
(source loop over storedAnnotations with decreasing index). -/
def scanSelect (point : Point) (s : CanvasState) : CanvasState :=
  match s.storedAnnotations.reverse.find?
      (fun ann => isPointInBbox point ann.bbox) with
  | some ann => { s with selectedAnnotationId := some ann.id }
  | none => { s with selectedAnnotationId := none }

/-- Pointer-down handler (source function handleMouseDown).  With no
active tool it runs the selection-mode priority chain: resize handle of
the selected annotation, then interior of the selected annotation, then
topmost-first scan, then deselect.  With the text tool it does nothing;
with a shape tool it starts a drag. -/
def handleMouseDown (selectedTool : ToolType) (point : Point)
    (s : CanvasState) : CanvasState :=
  match selectedTool with
  | none =>
      (match s.selectedAnnotationId with
       | some selId =>
           match s.storedAnnotations.find? (fun ann => decide (ann.id = selId)) with
           | some selectedAnn =>
               (match getResizeHandleAtPoint point selectedAnn.bbox with
                | some handle =>
                    { s with isResizing := true, resizeHandle := some handle
                             startPoint := some point }
                | none =>
                    if isPointInBbox point selectedAnn.bbox then
                      { s with isMoving := true, moveStartPoint := some point }
                    else
                      scanSelect point s)
           | none => scanSelect point s
       | none => scanSelect point s)
  | some Tool.text => s
  | some tool =>
      { s with isDrawing := true, startPoint := some point
               currentPoint := some point
               pathPoints :=
                 if tool = Tool.freehand then [point] else s.pathPoints }

/-- Translation applied to one annotation during a Moving step: the
selected annotation has its bbox origin shifted, and the line endpoints or
the path points shifted by the same delta; other annotations are returned
unchanged (source map callback in the moving branch of handleMouseMove;
the attribute match is only ever reached with attributes matching the
kind, which holds for every annotation this component builds). -/
def translateAnn (dx dy : ℚ) (selId : String) (ann : Annotation) :
    Annotation :=
  if ann.id = selId then
    { ann with
      bbox := { ann.bbox with x := ann.bbox.x + dx, y := ann.bbox.y + dy }
      attributes :=
        match ann.type, ann.attributes with
        | AnnType.line, Attrs.lineAttrs c sw sx sy ex ey =>
            Attrs.lineAttrs c sw (sx + dx) (sy + dy) (ex + dx) (ey + dy)
        | AnnType.path, Attrs.pathAttrs c sw pts =>
            Attrs.pathAttrs c sw
              (pts.map (fun p => { x := p.x + dx, y := p.y + dy }))
        | _, a => a }
  else ann

/-- The minimum bbox side length enforced by resizing
(source constant minSize). -/
def minSize : ℚ := 5

/-- The unclamped bbox edit of a resize step: handles containing e grow
the width, w shift x and shrink the width, s grow the height, n shift y
and shrink the height (source if-chain on resizeHandle.includes). -/
def resizeBboxRaw (handle : ResizeHandle) (dx dy : ℚ) (b : Bbox) : Bbox :=
  let hasE := handle = ResizeHandle.ne ∨ handle = ResizeHandle.se ∨
    handle = ResizeHandle.e
  let hasW := handle = ResizeHandle.nw ∨ handle = ResizeHandle.sw ∨
    handle = ResizeHandle.w
  let hasS := handle = ResizeHandle.sw ∨ handle = ResizeHandle.se ∨
    handle = ResizeHandle.s
  let hasN := handle = ResizeHandle.nw ∨ handle = ResizeHandle.ne ∨
    handle = ResizeHandle.n
  let b1 := if hasE then { b with w := b.w + dx } else b
  let b2 := if hasW then { b1 with x := b1.x + dx, w := b1.w - dx } else b1
  let b3 := if hasS then { b2 with h := b2.h + dy } else b2
  if hasN then { b3 with y := b3.y + dy, h := b3.h - dy } else b3

/-- The minimum-size clamp applied after the bbox edit (source comment
about preventing negative dimensions). -/
def clampMin (b : Bbox) : Bbox :=
  let b1 := if b.w < minSize then { b with w := minSize } else b
  if b1.h < minSize then { b1 with h := minSize } else b1

/-- One full bbox resize step: edit then clamp. -/
def resizeBbox (handle : ResizeHandle) (dx dy : ℚ) (b : Bbox) : Bbox :=
  clampMin (resizeBboxRaw handle dx dy b)

/-- Attribute rescaling after a bbox resize (source branch on ann.type in
the resizing branch of handleMouseMove): line endpoints and path points
are mapped through newPos = (oldPos - oldOrigin) * scale + newOrigin per
axis with scale = newSize / oldSize; text font size is scaled by the
smaller axis ratio, rounded, and floored at 8.  Rational division by zero
yields 0 here; the host-language semantics of a zero old size is treated
separately with the JsNum model below. -/
def resizeAttrs (oldBbox newBbox : Bbox) (type : AnnType) (attrs : Attrs) :
    Attrs :=
  match type, attrs with
  | AnnType.line, Attrs.lineAttrs c sw sx sy ex ey =>
      let scaleX := newBbox.w / oldBbox.w
      let scaleY := newBbox.h / oldBbox.h
      Attrs.lineAttrs c sw
        ((sx - oldBbox.x) * scaleX + newBbox.x)
        ((sy - oldBbox.y) * scaleY + newBbox.y)
        ((ex - oldBbox.x) * scaleX + newBbox.x)
        ((ey - oldBbox.y) * scaleY + newBbox.y)
  | AnnType.path, Attrs.pathAttrs c sw pts =>
      let scaleX := newBbox.w / oldBbox.w
      let scaleY := newBbox.h / oldBbox.h
      Attrs.pathAttrs c sw
        (pts.map (fun p =>
          { x := (p.x - oldBbox.x) * scaleX + newBbox.x
            y := (p.y - oldBbox.y) * scaleY + newBbox.y }))
  | AnnType.text, Attrs.textAttrs t fs c =>
      let scale := min (newBbox.w / oldBbox.w) (newBbox.h / oldBbox.h)
      let base := if fs = 0 then (16 : ℚ) else fs
      Attrs.textAttrs t (max 8 ((round (base * scale) : ℤ) : ℚ)) c
  | _, a => a

/-- Resize applied to one annotation during a Resizing step; annotations
other than the selected one are returned unchanged (source map callback
in the resizing branch of handleMouseMove). -/
def resizeAnn (handle : ResizeHandle) (dx dy : ℚ) (selId : String)
    (ann : Annotation) : Annotation :=
  if ann.id = selId then
    let newBbox := resizeBbox handle dx dy ann.bbox
    { ann with bbox := newBbox
               attributes := resizeAttrs ann.bbox newBbox ann.type ann.attributes }
  else ann

/-- Pointer-move handler (source function handleMouseMove): the moving
branch translates the selected annotation by the delta from the previous
pointer position and re-anchors that position; the resizing branch edits
the bbox and rescales attributes, re-anchoring the press point; otherwise
a live drag updates the current point and appends to a freehand path. -/
def handleMouseMove (selectedTool : ToolType) (point : Point)
    (s : CanvasState) : CanvasState :=
  match s.isMoving, s.selectedAnnotationId, s.moveStartPoint with
  | true, some selId, some mp =>
      let dx := point.x - mp.x
      let dy := point.y - mp.y
      { s with
        storedAnnotations := s.storedAnnotations.map (translateAnn dx dy selId)
        moveStartPoint := some point }
  | _, _, _ =>
      match s.isResizing, s.selectedAnnotationId, s.startPoint,
          s.resizeHandle with
      | true, some selId, some sp, some handle =>
          let dx := point.x - sp.x
          let dy := point.y - sp.y
          { s with
            storedAnnotations :=
              s.storedAnnotations.map (resizeAnn handle dx dy selId)
            startPoint := some point }
      | _, _, _, _ =>
          if s.isDrawing = true ∧ selectedTool ≠ none then
            let s1 := { s with currentPoint := some point }
            if selectedTool = some Tool.freehand then
              { s1 with pathPoints := s1.pathPoints ++ [point] }
            else s1
          else s

/-- Pointer-up handler (source function handleMouseUp); the second
component is the annotation passed to the creation callback, if any. -/
def handleMouseUp (selectedTool : ToolType) (page : Nat) (point : Point)
    (timestampMs : Nat) (s : CanvasState) : CanvasState × Option Annotation :=
  if s.isMoving then
    ({ s with isMoving := false, moveStartPoint := none }, none)
  else if s.isResizing then
    ({ s with isResizing := false, resizeHandle := none
              startPoint := none }, none)
  else
    match s.isDrawing, s.startPoint with
    | true, some sp =>
        let annotation :=
          createAnnotation selectedTool sp point s.pathPoints page timestampMs
        let stored :=
          match annotation with
          | some a => s.storedAnnotations ++ [a]
          | none => s.storedAnnotations
        let path :=
          if selectedTool = some Tool.freehand then [] else s.pathPoints
        ({ s with storedAnnotations := stored, pathPoints := path
                  isDrawing := false, startPoint := none
                  currentPoint := none }, annotation)
    | _, _ => (s, none)

/-- Click handler opening the text-entry affordance
(source function handleCanvasClick). -/
def handleCanvasClick (selectedTool : ToolType) (point : Point)
    (s : CanvasState) : CanvasState :=
  if selectedTool = some Tool.text ∧ s.showTextInput = false then
    { s with textPosition := some point, showTextInput := true
             textValue := "" }
  else s

/-- Key handler of the text-entry input (source function
handleTextKeyDown); the second component is the annotation passed to the
creation callback, if any. -/
def handleTextKeyDown (key : String) (page : Nat) (timestampMs : Nat)
    (s : CanvasState) : CanvasState × Option Annotation :=
  if h : key = "Enter" ∧ jsTrim s.textValue ≠ "" ∧ s.textPosition.isSome then
    let pos := s.textPosition.get h.2.2
    let annotation : Annotation :=
      { id := annId timestampMs, type := AnnType.text, page := page
        bbox := { x := pos.x, y := pos.y, w := 100, h := 20 }
        attributes := Attrs.textAttrs s.textValue 16 baseColor
        createdAt := timestampMs }
    ({ s with storedAnnotations := s.storedAnnotations ++ [ annotation]
              showTextInput := false, textValue := ""
              textPosition := none }, some annotation)
  else if key = "Escape" then
    ({ s with showTextInput := false, textValue := ""
              textPosition := none }, none)
  else (s, none)

/-- Global key handler (source keydown listener): Delete with a selection
removes the selected annotation and clears the selection. -/
def handleKeyDown (key : String) (s : CanvasState) : CanvasState :=
  match s.selectedAnnotationId with
  | some selId =>
      if key = "Delete" then
        { s with
          storedAnnotations :=
            s.storedAnnotations.filter (fun ann => decide (ann.id ≠ selId))
          selectedAnnotationId := none }
      else s
  | none => s

/-- Extended number value mirroring the host-language number semantics
where finiteness matters: a finite value, the two infinities, or NaN.
Rounding of finite values is immaterial for the finiteness questions asked
here and is not modelled. -/
inductive JsNum
  | num : ℚ → JsNum
  | posInf
  | negInf
  | nan
deriving DecidableEq, Repr

/-- Finiteness of an extended value. -/
def JsNum.isFinite : JsNum → Bool
  | JsNum.num _ => true
  | _ => false

/-- Negation on extended values. -/
def jsNeg : JsNum → JsNum
  | JsNum.num a => JsNum.num (-a)
  | JsNum.posInf => JsNum.negInf
  | JsNum.negInf => JsNum.posInf
  | JsNum.nan => JsNum.nan

/-- Addition on extended values; opposite infinities give NaN and NaN
propagates. -/
def jsAdd : JsNum → JsNum → JsNum
  | JsNum.num a, JsNum.num b => JsNum.num (a + b)
  | JsNum.num _, JsNum.posInf => JsNum.posInf
  | JsNum.posInf, JsNum.num _ => JsNum.posInf
  | JsNum.posInf, JsNum.posInf => JsNum.posInf
  | JsNum.num _, JsNum.negInf => JsNum.negInf
  | JsNum.negInf, JsNum.num _ => JsNum.negInf
  | JsNum.negInf, JsNum.negInf => JsNum.negInf
  | JsNum.posInf, JsNum.negInf => JsNum.nan
  | JsNum.negInf, JsNum.posInf => JsNum.nan
  | _, _ => JsNum.nan

/-- Subtraction on extended values. -/
def jsSub (a b : JsNum) : JsNum := jsAdd a (jsNeg b)

/-- Multiplication on extended values; zero times an infinity gives NaN
and NaN propagates. -/
def jsMul : JsNum → JsNum → JsNum
  | JsNum.num a, JsNum.num b => JsNum.num (a * b)
  | JsNum.num a, JsNum.posInf =>
      if 0 < a then JsNum.posInf else if a < 0 then JsNum.negInf else JsNum.nan
  | JsNum.posInf, JsNum.num b =>
      if 0 < b then JsNum.posInf else if b < 0 then JsNum.negInf else JsNum.nan
  | JsNum.num a, JsNum.negInf =>
      if 0 < a then JsNum.negInf else if a < 0 then JsNum.posInf else JsNum.nan
  | JsNum.negInf, JsNum.num b =>
      if 0 < b then JsNum.negInf else if b < 0 then JsNum.posInf else JsNum.nan
  | JsNum.posInf, JsNum.posInf => JsNum.posInf
  | JsNum.posInf, JsNum.negInf => JsNum.negInf
  | JsNum.negInf, JsNum.posInf => JsNum.negInf
  | JsNum.negInf, JsNum.negInf => JsNum.posInf
  | _, _ => JsNum.nan

/-- Division on extended values: a nonzero finite value divided by zero
gives a signed infinity, zero divided by zero gives NaN, a finite value
divided by an infinity gives zero, and NaN propagates.  The sign of a zero
divisor is not modelled (the divisors of interest are plain zeros). -/
def jsDiv : JsNum → JsNum → JsNum
  | JsNum.num a, JsNum.num b =>
      if b ≠ 0 then JsNum.num (a / b)
      else if 0 < a then JsNum.posInf
      else if a < 0 then JsNum.negInf
      else JsNum.nan
  | JsNum.num _, JsNum.posInf => JsNum.num 0
  | JsNum.num _, JsNum.negInf => JsNum.num 0
  | JsNum.posInf, JsNum.num b =>
      if 0 ≤ b then JsNum.posInf else JsNum.negInf
  | JsNum.negInf, JsNum.num b =>
      if 0 ≤ b then JsNum.negInf else JsNum.posInf
  | _, _ => JsNum.nan

/-- The per-coordinate rescale formula of the resizing branch, evaluated
in extended number semantics:
newPos = (oldPos - oldOrigin) * scale + newOrigin. -/
def jsRescaleCoord (oldPos oldOrigin newOrigin scale : JsNum) : JsNum :=
  jsAdd (jsMul (jsSub oldPos oldOrigin) scale) newOrigin

/-- The y-axis rescale of a line start point exactly as the resizing
branch computes it, in extended number semantics: the scale factor is
newBbox.h / oldBbox.h and the coordinate goes through jsRescaleCoord. -/
def jsLineStartY (oldBbox newBbox : Bbox) (startY : ℚ) : JsNum :=
  jsRescaleCoord (JsNum.num startY) (JsNum.num oldBbox.y)
    (JsNum.num newBbox.y) (jsDiv (JsNum.num newBbox.h) (JsNum.num oldBbox.h))

/- Concrete fixtures used by witness theorems. -/

/-- A committed rectangle annotation used in witness states. -/
def rectAnn : Annotation :=
  { id := annId 1, type := AnnType.rect, page := 1
    bbox := { x := 10, y := 10, w := 30, h := 20 }
    attributes := Attrs.shape baseColor 3, createdAt := 1 }

/-- A committed line annotation used in witness states. -/
def lineAnn : Annotation :=
  { id := annId 2, type := AnnType.line, page := 1
    bbox := { x := 60, y := 10, w := 30, h := 20 }
    attributes := Attrs.lineAttrs baseColor 3 60 10 90 30, createdAt := 2 }

/-- A state in the middle of a drag of the rectangle tool. -/
def drawState : CanvasState :=
  { initialState with
      isDrawing := true
      startPoint := some { x := 100, y := 100 }
      currentPoint := some { x := 100, y := 100 } }

/-- A state in which the line annotation is selected and Moving. -/
def moveState : CanvasState :=
  { initialState with
      storedAnnotations := [rectAnn, lineAnn]
      selectedAnnotationId := some (annId 2)
      isMoving := true
      moveStartPoint := some { x := 62, y := 12 } }

/-- A state in which the rectangle annotation is selected and Resizing by
the south-east handle. -/
def resizeState : CanvasState :=
  { initialState with
      storedAnnotations := [rectAnn, lineAnn]
      selectedAnnotationId := some (annId 1)
      isResizing := true
      resizeHandle := some ResizeHandle.se
      startPoint := some { x := 40, y := 30 } }

/-- A state in which the rectangle annotation is merely selected. -/
def selState : CanvasState :=
  { initialState with
      storedAnnotations := [rectAnn, lineAnn]
      selectedAnnotationId := some (annId 1) }

/-- A state in the middle of a text entry with content Hi anchored at
(100, 100). -/
def textState : CanvasState :=
  { initialState with
      showTextInput := true
      textPosition := some { x := 100, y := 100 }
      textValue := "Hi" }

/-- The condition under which a pointer-down with no active tool keeps
the current selection: some stored annotation carries the selected id and
the point either hits one of its resize handles or lies inside its bbox
(the first two arms of the priority chain of handleMouseDown). -/
def selKeep (point : Point) (s : CanvasState) : Prop :=
  ∃ selId selectedAnn,
    s.selectedAnnotationId = some selId ∧
    s.storedAnnotations.find? (fun ann => decide (ann.id = selId)) =
      some selectedAnn ∧
    (getResizeHandleAtPoint point selectedAnn.bbox ≠ none ∨
      isPointInBbox point selectedAnn.bbox = true)

/- Helper lemmas shared by the claim theorems. -/

/-- Pairs of a list zipped with its image under a map are graph pairs of
the function. -/
theorem mem_zip_map {α β : Type} (f : α → β) :
    ∀ (l : List α) (pr : α × β), pr ∈ l.zip (l.map f) → pr.2 = f pr.1 := by
  intro l
  induction l with
  | nil => intro pr h; simp at h
  | cons a t ih =>
      intro pr h
      rw [List.map_cons, List.zip_cons_cons] at h
      rcases List.mem_cons.mp h with h1 | h1
      · rw [h1]
      · exact ih pr h1

/-- Pairs of a list zipped with itself are diagonal pairs. -/
theorem mem_zip_self {α : Type} (l : List α) (pr : α × α)
    (h : pr ∈ l.zip l) : pr.2 = pr.1 := by
  have hm := mem_zip_map (fun a => a) l pr
  rw [List.map_id'] at hm
  exact hm h

/-- The clamp of the resize step bounds both box sides below by the
minimum size. -/
theorem clampMin_bounds (b : Bbox) :
    minSize ≤ (clampMin b).w ∧ minSize ≤ (clampMin b).h := by
  unfold clampMin
  dsimp only
  split_ifs with h1 h2 h2 <;>
    exact ⟨by first | rfl | linarith, by first | rfl | linarith⟩

/-- A resized bbox satisfies the minimum-size bounds. -/
theorem resizeBbox_bounds (handle : ResizeHandle) (dx dy : ℚ) (b : Bbox) :
    minSize ≤ (resizeBbox handle dx dy b).w ∧
    minSize ≤ (resizeBbox handle dx dy b).h :=
  clampMin_bounds (resizeBboxRaw handle dx dy b)

/-- Translation during Moving keeps id, kind, page and creation time. -/
theorem translateAnn_fields (dx dy : ℚ) (selId : String) (ann : Annotation) :
    (translateAnn dx dy selId ann).id = ann.id ∧
    (translateAnn dx dy selId ann).type = ann.type ∧
    (translateAnn dx dy selId ann).page = ann.page ∧
    (translateAnn dx dy selId ann).createdAt = ann.createdAt := by
  unfold translateAnn
  split_ifs <;> exact ⟨rfl, rfl, rfl, rfl⟩

/-- Translation during Moving leaves annotations with another id alone. -/
theorem translateAnn_other (dx dy : ℚ) (selId : String) (ann : Annotation)
    (h : ann.id ≠ selId) : translateAnn dx dy selId ann = ann := by
  unfold translateAnn
  rw [if_neg h]

/-- Resizing keeps id, kind, page and creation time. -/
theorem resizeAnn_fields (handle : ResizeHandle) (dx dy : ℚ) (selId : String)
    (ann : Annotation) :
    (resizeAnn handle dx dy selId ann).id = ann.id ∧
    (resizeAnn handle dx dy selId ann).type = ann.type ∧
    (resizeAnn handle dx dy selId ann).page = ann.page ∧
    (resizeAnn handle dx dy selId ann).createdAt = ann.createdAt := by
  unfold resizeAnn
  split_ifs <;> exact ⟨rfl, rfl, rfl, rfl⟩

/-- Resizing leaves annotations with another id alone. -/
theorem resizeAnn_other (handle : ResizeHandle) (dx dy : ℚ) (selId : String)
    (ann : Annotation) (h : ann.id ≠ selId) :
    resizeAnn handle dx dy selId ann = ann := by
  unfold resizeAnn
  rw [if_neg h]

/-- Claim C5: every pair of distinct annotations created within one
running session has distinct ids.  The id is a pure function of the
millisecond clock reading, so two creations falling in the same
millisecond produce two different annotations carrying the same id: here a
rectangle and a circle both created at clock reading 1000. -/
theorem C5_same_millisecond_id_collision :
    (( createAnnotation (some Tool.rect) { x := 0, y := 0 }
          { x := 10, y := 10 } [] 1 1000).map Annotation.id =
        ( createAnnotation (some Tool.circle) { x := 20, y := 20 }
          { x := 30, y := 40 } [] 1 1000).map Annotation.id) ∧
    ( createAnnotation (some Tool.rect) { x := 0, y := 0 }
        { x := 10, y := 10 } [] 1 1000 ≠
      createAnnotation (some Tool.circle) { x := 20, y := 20 }
        { x := 30, y := 40 } [] 1 1000) := by
  constructor
  · rfl
  · decide

/-- Claim C10 as stated is false: the factory commits a perfectly
horizontal line with a zero-height bbox, and a Resizing step on it divides
by that zero height, so in the host number semantics the scale factor is
infinite and the rescaled start-point y coordinate is NaN, not finite. -/
theorem C10_zero_height_rescale_not_finite :
    (( createAnnotation (some Tool.line) { x := 0, y := 0 }
          { x := 100, y := 0 } [] 1 5).map Annotation.bbox =
        some { x := 0, y := 0, w := 100, h := 0 }) ∧
    (resizeBbox ResizeHandle.s 0 10 { x := 0, y := 0, w := 100, h := 0 } =
        { x := 0, y := 0, w := 100, h := 10 }) ∧
    ((jsLineStartY { x := 0, y := 0, w := 100, h := 0 }
        (resizeBbox ResizeHandle.s 0 10 { x := 0, y := 0, w := 100, h := 0 })
        0).isFinite = false) := by
  have hb : resizeBbox ResizeHandle.s 0 10 { x := 0, y := 0, w := 100, h := 0 } =
      { x := 0, y := 0, w := 100, h := 10 } := by
    simp +decide [resizeBbox, resizeBboxRaw, clampMin, minSize]
  refine ⟨?_, hb, ?_⟩
  · norm_num [ createAnnotation, dragBbox]
  · rw [hb]
    norm_num [jsLineStartY, jsRescaleCoord, jsDiv, jsSub, jsNeg, jsAdd, jsMul,
      JsNum.isFinite]

/-- Claim C10 amended: when the old bbox dimension is nonzero, the
per-coordinate rescale formula of the resizing branch stays finite in the
host number semantics and agrees with exact rational evaluation. -/
theorem C10_rescale_finite_of_nonzero
    (oldPos oldOrigin newOrigin newSize oldSize : ℚ) (h : oldSize ≠ 0) :
    jsRescaleCoord (JsNum.num oldPos) (JsNum.num oldOrigin)
        (JsNum.num newOrigin)
        (jsDiv (JsNum.num newSize) (JsNum.num oldSize)) =
      JsNum.num ((oldPos - oldOrigin) * (newSize / oldSize) + newOrigin) := by
  simp only [jsRescaleCoord, jsDiv, jsSub, jsNeg, jsAdd, jsMul, if_pos h,
    sub_eq_add_neg]

/-- Witness for the amended claim C10 at concrete values with a nonzero
old size. -/
theorem C10_rescale_finite_witness :
    jsRescaleCoord (JsNum.num 30) (JsNum.num 10) (JsNum.num 10)
        (jsDiv (JsNum.num 40) (JsNum.num 20)) =
      JsNum.num ((30 - 10) * (40 / 20) + 10) :=
  C10_rescale_finite_of_nonzero 30 10 10 40 20 (by norm_num)

/-- Claim C1: a completed rectangle or circle drag from the press point to
the release point emits through the creation callback an annotation whose
bbox has the componentwise minimum as origin and the absolute coordinate
differences as width and height, and whose kind is the active tool. -/
theorem C1_drag_bbox_normalized (tool : Tool) (s : CanvasState)
    (sp point : Point) (page timestampMs : Nat)
    (htool : tool = Tool.rect ∨ tool = Tool.circle)
    (hDraw : s.isDrawing = true) (hSp : s.startPoint = some sp)
    (hMov : s.isMoving = false) (hRes : s.isResizing = false) :
    ∃ ann,
      (handleMouseUp (some tool) page point timestampMs s).2 = some ann ∧
      (handleMouseUp (some tool) page point timestampMs s).1.storedAnnotations
        = s.storedAnnotations ++ [ann] ∧
      ann.bbox.x = min sp.x point.x ∧ ann.bbox.y = min sp.y point.y ∧
      ann.bbox.w = |point.x - sp.x| ∧ ann.bbox.h = |point.y - sp.y| ∧
      (tool = Tool.rect → ann.type = AnnType.rect) ∧
      (tool = Tool.circle → ann.type = AnnType.circle) := by
  rcases htool with h | h <;> subst h
  · refine ⟨{ id := annId timestampMs, type := AnnType.rect,
                page := page, bbox := dragBbox sp point,
                attributes := Attrs.shape baseColor 3,
                createdAt := timestampMs }, ?_⟩
    simp +decide [handleMouseUp, hDraw, hSp, hMov, hRes, createAnnotation,
      dragBbox]
  · refine ⟨{ id := annId timestampMs, type := AnnType.circle,
                page := page, bbox := dragBbox sp point,
                attributes := Attrs.shape baseColor 3,
                createdAt := timestampMs }, ?_⟩
    simp +decide [handleMouseUp, hDraw, hSp, hMov, hRes, createAnnotation,
      dragBbox]

/-- Witness for claim C1: the spec scenario drag of the rectangle tool
from (100, 100) to (200, 200). -/
theorem C1_drag_bbox_witness :
    drawState.isDrawing = true ∧
    ∃ ann,
      (handleMouseUp (some Tool.rect) 1 { x := 200, y := 200 } 5
          drawState).2 = some ann ∧
      (handleMouseUp (some Tool.rect) 1 { x := 200, y := 200 } 5
          drawState).1.storedAnnotations =
        drawState.storedAnnotations ++ [ann] ∧
      ann.bbox.x = min (100 : ℚ) 200 ∧ ann.bbox.y = min (100 : ℚ) 200 ∧
      ann.bbox.w = |(200 : ℚ) - 100| ∧ ann.bbox.h = |(200 : ℚ) - 100| ∧
      (Tool.rect = Tool.rect → ann.type = AnnType.rect) ∧
      (Tool.rect = Tool.circle → ann.type = AnnType.circle) :=
  ⟨rfl, C1_drag_bbox_normalized Tool.rect drawState { x := 100, y := 100 }
    { x := 200, y := 200 } 1 5 (Or.inl rfl) rfl rfl rfl rfl⟩

/-- Claim C7: during a text entry anchored at the click point, Enter with
non-empty trimmed content commits exactly one text annotation carrying the
typed content, font size 16 and the fixed 100 by 20 box at the anchor
point, and closes the affordance; Enter with only-whitespace content
commits nothing; Escape closes the affordance without committing,
regardless of the typed content. -/
theorem C7_text_entry (s : CanvasState) (pos : Point)
    (page timestampMs : Nat) (hPos : s.textPosition = some pos) :
    (jsTrim s.textValue ≠ "" →
      handleTextKeyDown "Enter" page timestampMs s =
        ({ s with
            storedAnnotations := s.storedAnnotations ++
              [{ id := annId timestampMs, type := AnnType.text,
                 page := page,
                 bbox := { x := pos.x, y := pos.y, w := 100, h := 20 },
                 attributes := Attrs.textAttrs s.textValue 16 baseColor,
                 createdAt := timestampMs }],
            showTextInput := false, textValue := "", textPosition := none },
          some { id := annId timestampMs, type := AnnType.text,
                 page := page,
                 bbox := { x := pos.x, y := pos.y, w := 100, h := 20 },
                 attributes := Attrs.textAttrs s.textValue 16 baseColor,
                 createdAt := timestampMs })) ∧
    (jsTrim s.textValue = "" →
      handleTextKeyDown "Enter" page timestampMs s = (s, none)) ∧
    (handleTextKeyDown "Escape" page timestampMs s =
      ({ s with showTextInput := false, textValue := "",
                textPosition := none }, none)) := by
  refine ⟨?_, ?_, ?_⟩
  · intro h
    have hcond : ("Enter" : String) = "Enter" ∧ jsTrim s.textValue ≠ "" ∧
        s.textPosition.isSome := ⟨rfl, h, by rw [hPos]; rfl⟩
    unfold handleTextKeyDown
    rw [dif_pos hcond]
    simp [hPos]
  · intro h
    simp only [handleTextKeyDown]
    rw [dif_neg (by simp [h])]
    simp +decide
  · simp only [handleTextKeyDown]
    rw [dif_neg (by simp +decide)]
    simp

/-- Witness for claim C7: the spec scenario of typing Hi at (100, 100) and
pressing Enter. -/
theorem C7_text_entry_witness :
    handleTextKeyDown "Enter" 1 7 textState =
      ({ textState with
          storedAnnotations := textState.storedAnnotations ++
            [{ id := annId 7, type := AnnType.text, page := 1,
               bbox := { x := 100, y := 100, w := 100, h := 20 },
               attributes := Attrs.textAttrs "Hi" 16 baseColor,
               createdAt := 7 }],
          showTextInput := false, textValue := "", textPosition := none },
        some { id := annId 7, type := AnnType.text, page := 1,
               bbox := { x := 100, y := 100, w := 100, h := 20 },
               attributes := Attrs.textAttrs "Hi" 16 baseColor,
               createdAt := 7 }) :=
  (C7_text_entry textState { x := 100, y := 100 } 1 7 rfl).1 (by decide)

/-- Claim C6: Delete with a selected annotation removes exactly that
annotation, leaving every other annotation in place and in order, and
clears the selection (under the session invariant that stored ids are
distinct); Delete with no selection is a no-op; and a second Delete right
after a first one changes nothing, so two presses remove at most one
annotation. -/
theorem C6_delete_selected (s : CanvasState) :
    (∀ selId ann, s.selectedAnnotationId = some selId →
      ann ∈ s.storedAnnotations → ann.id = selId →
      (s.storedAnnotations.map Annotation.id).Nodup →
      ∃ l1 l2, s.storedAnnotations = l1 ++ ann :: l2 ∧
        (handleKeyDown "Delete" s).storedAnnotations = l1 ++ l2 ∧
        (handleKeyDown "Delete" s).selectedAnnotationId = none) ∧
    (s.selectedAnnotationId = none → handleKeyDown "Delete" s = s) ∧
    (handleKeyDown "Delete" (handleKeyDown "Delete" s) =
      handleKeyDown "Delete" s) := by
  refine ⟨?_, ?_, ?_⟩
  · intro selId ann hSel hMem hId hNodup
    obtain ⟨l1, l2, hSplit⟩ := List.append_of_mem hMem
    rw [hSplit] at hNodup
    rw [List.map_append, List.map_cons] at hNodup
    have hd := List.nodup_append.mp hNodup
    have hNotL1 : ann.id ∉ l1.map Annotation.id := fun hc =>
      hd.2.2 hc (List.mem_cons_self _ _)
    have hNotL2 : ann.id ∉ l2.map Annotation.id :=
      (List.nodup_cons.mp hd.2.1).1
    have hOther : ∀ t : List Annotation, ann.id ∉ t.map Annotation.id →
        t.filter (fun a => decide (a.id ≠ selId)) = t := by
      intro t ht
      refine List.filter_eq_self.mpr ?_
      intro a ha
      have : a.id ≠ selId := fun hc => by
        refine ht ?_
        rw [hId, ← hc]
        exact List.mem_map_of_mem Annotation.id ha
      simpa using this
    refine ⟨l1, l2, hSplit, ?_, ?_⟩
    · simp only [handleKeyDown, hSel, if_pos rfl]
      rw [hSplit, List.filter_append, List.filter_cons]
      rw [hOther l1 hNotL1, hOther l2 hNotL2]
      simp [hId]
    · simp [handleKeyDown, hSel]
  · intro h
    simp [handleKeyDown, h]
  · cases hSel : s.selectedAnnotationId with
    | none => simp [handleKeyDown, hSel]
    | some selId => simp [handleKeyDown, hSel]

/-- Witness for claim C6: deleting the selected rectangle from a state
holding the rectangle and the line. -/
theorem C6_delete_selected_witness :
    ∃ l1 l2, selState.storedAnnotations = l1 ++ rectAnn :: l2 ∧
      (handleKeyDown "Delete" selState).storedAnnotations = l1 ++ l2 ∧
      (handleKeyDown "Delete" selState).selectedAnnotationId = none :=
  (C6_delete_selected selState).1 (annId 1) rectAnn rfl
    (List.mem_cons_self _ _) rfl (by decide)

/-- Claim C2: a Moving pointer-move step with incremental delta taken
from the previous pointer position translates the selected annotation
bbox by exactly that delta with width and height unchanged, translates
both line endpoints by the same delta for a line, translates every path
point by the same delta keeping length and order for a path, and the
selection survives the pointer-up that ends Moving. -/
theorem C2_move_step (tool : ToolType) (point : Point) (s : CanvasState)
    (selId : String) (mp : Point)
    (hMov : s.isMoving = true)
    (hSel : s.selectedAnnotationId = some selId)
    (hMp : s.moveStartPoint = some mp) :
    (handleMouseMove tool point s).storedAnnotations.length =
      s.storedAnnotations.length ∧
    (∀ pr ∈ s.storedAnnotations.zip
        (handleMouseMove tool point s).storedAnnotations,
      pr.1.id = selId →
        (pr.2.bbox.x = pr.1.bbox.x + (point.x - mp.x) ∧
         pr.2.bbox.y = pr.1.bbox.y + (point.y - mp.y) ∧
         pr.2.bbox.w = pr.1.bbox.w ∧ pr.2.bbox.h = pr.1.bbox.h) ∧
        (∀ c sw sx sy ex ey, pr.1.type = AnnType.line →
          pr.1.attributes = Attrs.lineAttrs c sw sx sy ex ey →
          pr.2.attributes = Attrs.lineAttrs c sw (sx + (point.x - mp.x))
            (sy + (point.y - mp.y)) (ex + (point.x - mp.x))
            (ey + (point.y - mp.y))) ∧
        (∀ c sw pts, pr.1.type = AnnType.path →
          pr.1.attributes = Attrs.pathAttrs c sw pts →
          pr.2.attributes = Attrs.pathAttrs c sw
            (pts.map (fun p => { x := p.x + (point.x - mp.x),
                                 y := p.y + (point.y - mp.y) })))) ∧
    (∀ page : Nat, ∀ q : Point, ∀ timestampMs : Nat,
      (handleMouseUp tool page q timestampMs
          (handleMouseMove tool point s)).1.selectedAnnotationId =
        some selId ∧
      (handleMouseUp tool page q timestampMs
          (handleMouseMove tool point s)).1.isMoving = false) := by
  have hmm : handleMouseMove tool point s =
      { s with
        storedAnnotations := s.storedAnnotations.map
          (translateAnn (point.x - mp.x) (point.y - mp.y) selId)
        moveStartPoint := some point } := by
    simp [handleMouseMove, hMov, hSel, hMp]
  refine ⟨?_, ?_, ?_⟩
  · rw [hmm]
    exact (List.length_map _ _).symm ▸ rfl
  · rw [hmm]
    intro pr hpr hprid
    have h2 := mem_zip_map
      (translateAnn (point.x - mp.x) (point.y - mp.y) selId)
      s.storedAnnotations pr hpr
    refine ⟨?_, ?_, ?_⟩
    · rw [h2]
      unfold translateAnn
      rw [if_pos hprid]
      exact ⟨rfl, rfl, rfl, rfl⟩
    · intro c sw sx sy ex ey hty hattrs
      rw [h2]
      unfold translateAnn
      rw [if_pos hprid]
      simp [hty, hattrs]
    · intro c sw pts hty hattrs
      rw [h2]
      unfold translateAnn
      rw [if_pos hprid]
      simp [hty, hattrs]
  · intro page q timestampMs
    rw [hmm]
    constructor
    · simp [handleMouseUp, hMov, hSel]
    · simp [handleMouseUp, hMov]

/-- Witness for claim C2: moving the selected line by delta (3, 3),
evaluated on the translated line and on the pointer-up that ends the
gesture. -/
theorem C2_move_step_witness :
    (handleMouseMove none { x := 65, y := 15 }
        moveState).storedAnnotations.length =
      moveState.storedAnnotations.length ∧
    ((translateAnn ((65 : ℚ) - 62) ((15 : ℚ) - 12) (annId 2)
          lineAnn).bbox.x = lineAnn.bbox.x + ((65 : ℚ) - 62) ∧
      (translateAnn ((65 : ℚ) - 62) ((15 : ℚ) - 12) (annId 2)
          lineAnn).bbox.y = lineAnn.bbox.y + ((15 : ℚ) - 12) ∧
      (translateAnn ((65 : ℚ) - 62) ((15 : ℚ) - 12) (annId 2)
          lineAnn).bbox.w = lineAnn.bbox.w ∧
      (translateAnn ((65 : ℚ) - 62) ((15 : ℚ) - 12) (annId 2)
          lineAnn).bbox.h = lineAnn.bbox.h) ∧
    (translateAnn ((65 : ℚ) - 62) ((15 : ℚ) - 12) (annId 2)
        lineAnn).attributes =
      Attrs.lineAttrs baseColor 3 (60 + ((65 : ℚ) - 62))
        (10 + ((15 : ℚ) - 12)) (90 + ((65 : ℚ) - 62))
        (30 + ((15 : ℚ) - 12)) ∧
    (handleMouseUp none 1 { x := 0, y := 0 } 9
        (handleMouseMove none { x := 65, y := 15 }
          moveState)).1.selectedAnnotationId = some (annId 2) :=
  ⟨(C2_move_step none { x := 65, y := 15 } moveState (annId 2)
      { x := 62, y := 12 } rfl rfl rfl).1,
   ((C2_move_step none { x := 65, y := 15 } moveState (annId 2)
      { x := 62, y := 12 } rfl rfl rfl).2.1
      (lineAnn, translateAnn ((65 : ℚ) - 62) ((15 : ℚ) - 12) (annId 2)
        lineAnn)
      (List.mem_cons_of_mem _ (List.mem_cons_self _ _)) rfl).1,
   ((C2_move_step none { x := 65, y := 15 } moveState (annId 2)
      { x := 62, y := 12 } rfl rfl rfl).2.1
      (lineAnn, translateAnn ((65 : ℚ) - 62) ((15 : ℚ) - 12) (annId 2)
        lineAnn)
      (List.mem_cons_of_mem _ (List.mem_cons_self _ _)) rfl).2.1
      baseColor 3 60 10 90 30 rfl rfl,
   ((C2_move_step none { x := 65, y := 15 } moveState (annId 2)
      { x := 62, y := 12 } rfl rfl rfl).2.2 1 { x := 0, y := 0 } 9).1⟩

/-- Claim C3: after any Resizing pointer-move step, whichever of the
eight handles is active and wherever the pointer went, the resized
annotation satisfies the minimum bbox size of 5 in both dimensions. -/
theorem C3_resize_min_size (tool : ToolType) (point : Point)
    (s : CanvasState) (selId : String) (sp : Point) (handle : ResizeHandle)
    (hMov : s.isMoving = false) (hRes : s.isResizing = true)
    (hSel : s.selectedAnnotationId = some selId)
    (hSp : s.startPoint = some sp) (hH : s.resizeHandle = some handle) :
    ∀ ann ∈ (handleMouseMove tool point s).storedAnnotations,
      ann.id = selId → minSize ≤ ann.bbox.w ∧ minSize ≤ ann.bbox.h := by
  have hmm : handleMouseMove tool point s =
      { s with
        storedAnnotations := s.storedAnnotations.map
          (resizeAnn handle (point.x - sp.x) (point.y - sp.y) selId)
        startPoint := some point } := by
    simp [handleMouseMove, hMov, hRes, hSel, hSp, hH]
  intro ann hmem hid
  rw [hmm] at hmem
  obtain ⟨a, ha, rfl⟩ := List.mem_map.mp hmem
  have hidA : a.id = selId := by
    have hfld :=
      (resizeAnn_fields handle (point.x - sp.x) (point.y - sp.y) selId a).1
    rw [hfld] at hid
    exact hid
  unfold resizeAnn
  rw [if_pos hidA]
  exact resizeBbox_bounds handle (point.x - sp.x) (point.y - sp.y) a.bbox

/-- Witness for claim C3: dragging the south-east handle of the selected
rectangle to (50, 45), evaluated on the resized rectangle itself. -/
theorem C3_resize_min_size_witness :
    minSize ≤ (resizeAnn ResizeHandle.se ((50 : ℚ) - 40) ((45 : ℚ) - 30)
        (annId 1) rectAnn).bbox.w ∧
    minSize ≤ (resizeAnn ResizeHandle.se ((50 : ℚ) - 40) ((45 : ℚ) - 30)
        (annId 1) rectAnn).bbox.h :=
  C3_resize_min_size none { x := 50, y := 45 } resizeState (annId 1)
    { x := 40, y := 30 } ResizeHandle.se rfl rfl rfl rfl rfl
    (resizeAnn ResizeHandle.se ((50 : ℚ) - 40) ((45 : ℚ) - 30) (annId 1)
      rectAnn)
    (List.mem_cons_self _ _) rfl

/-- Claim C9: a pointer-move step never changes the number or order of
stored annotations, never changes any annotation whose id differs from
the selected id, and keeps the id, kind, page and creation time even of
the selected annotation; this covers every Moving and Resizing step. -/
theorem C9_move_resize_frame (tool : ToolType) (point : Point)
    (s : CanvasState) :
    (handleMouseMove tool point s).storedAnnotations.length =
      s.storedAnnotations.length ∧
    ∀ pr ∈ s.storedAnnotations.zip
        (handleMouseMove tool point s).storedAnnotations,
      pr.2.id = pr.1.id ∧ pr.2.type = pr.1.type ∧ pr.2.page = pr.1.page ∧
      pr.2.createdAt = pr.1.createdAt ∧
      (s.selectedAnnotationId ≠ some pr.1.id → pr.2 = pr.1) := by
  have hchar : (handleMouseMove tool point s).storedAnnotations =
      s.storedAnnotations ∨
      ∃ selId f, s.selectedAnnotationId = some selId ∧
        (handleMouseMove tool point s).storedAnnotations =
          s.storedAnnotations.map f ∧
        (∀ a : Annotation, (f a).id = a.id ∧ (f a).type = a.type ∧
          (f a).page = a.page ∧ (f a).createdAt = a.createdAt) ∧
        (∀ a : Annotation, a.id ≠ selId → f a = a) := by
    unfold handleMouseMove
    split
    · rename_i selId mp hm hsel hmp
      right
      exact ⟨selId, translateAnn (point.x - mp.x) (point.y - mp.y) selId,
        hsel, rfl,
        fun a => translateAnn_fields _ _ selId a,
        fun a h => translateAnn_other _ _ selId a h⟩
    · split
      · rename_i selId sp handle hr hsel hsp hh
        right
        exact ⟨selId, resizeAnn handle (point.x - sp.x) (point.y - sp.y)
            selId,
          hsel, rfl,
          fun a => resizeAnn_fields _ _ _ selId a,
          fun a h => resizeAnn_other _ _ _ selId a h⟩
      · left
        split
        · split <;> rfl
        · rfl
  constructor
  · rcases hchar with h | ⟨selId, f, hsel, hmap, hfields, hother⟩
    · rw [h]
    · rw [hmap, List.length_map]
  · intro pr hpr
    rcases hchar with h | ⟨selId, f, hsel, hmap, hfields, hother⟩
    · rw [h] at hpr
      have hdg := mem_zip_self _ _ hpr
      rw [hdg]
      exact ⟨rfl, rfl, rfl, rfl, fun _ => rfl⟩
    · rw [hmap] at hpr
      have h2 := mem_zip_map f s.storedAnnotations pr hpr
      obtain ⟨hid, hty, hpg, hca⟩ := hfields pr.1
      rw [h2]
      refine ⟨hid, hty, hpg, hca, ?_⟩
      intro hne
      apply hother
      intro hc
      apply hne
      rw [hsel, hc]

/-- Witness for claim C9 at a concrete Moving state: the unselected
rectangle is untouched and the selected line keeps its id. -/
theorem C9_move_resize_frame_witness :
    (handleMouseMove none { x := 65, y := 15 }
        moveState).storedAnnotations.length =
      moveState.storedAnnotations.length ∧
    translateAnn ((65 : ℚ) - 62) ((15 : ℚ) - 12) (annId 2) rectAnn =
      rectAnn ∧
    (translateAnn ((65 : ℚ) - 62) ((15 : ℚ) - 12) (annId 2) lineAnn).id =
      lineAnn.id :=
  ⟨(C9_move_resize_frame none { x := 65, y := 15 } moveState).1,
   ((C9_move_resize_frame none { x := 65, y := 15 } moveState).2
      (rectAnn, translateAnn ((65 : ℚ) - 62) ((15 : ℚ) - 12) (annId 2)
        rectAnn)
      (List.mem_cons_self _ _)).2.2.2.2 (by decide),
   ((C9_move_resize_frame none { x := 65, y := 15 } moveState).2
      (lineAnn, translateAnn ((65 : ℚ) - 62) ((15 : ℚ) - 12) (annId 2)
        lineAnn)
      (List.mem_cons_of_mem _ (List.mem_cons_self _ _))).1⟩

/-- A pointer-down with no active tool never changes the stored
collection. -/
theorem mouseDown_stored (point : Point) (s : CanvasState) :
    (handleMouseDown none point s).storedAnnotations =
      s.storedAnnotations := by
  unfold handleMouseDown scanSelect
  repeat first
  | rfl
  | split

/-- When the point hits the selected annotation (handle or interior), a
pointer-down with no active tool keeps the selection. -/
theorem mouseDown_sel_keep (point : Point) (s : CanvasState)
    (h : selKeep point s) :
    (handleMouseDown none point s).selectedAnnotationId =
      s.selectedAnnotationId := by
  obtain ⟨selId, selAnn, hsel, hfind, hcase⟩ := h
  cases hh : getResizeHandleAtPoint point selAnn.bbox with
  | some handle => simp [handleMouseDown, hsel, hfind, hh]
  | none =>
      rcases hcase with hne | hin
      · exact absurd hh hne
      · simp [handleMouseDown, hsel, hfind, hh, hin]

/-- When the point does not hit the selected annotation, a pointer-down
with no active tool selects the topmost containing annotation of the
scan, or clears the selection. -/
theorem mouseDown_sel_scan (point : Point) (s : CanvasState)
    (h : ¬ selKeep point s) :
    (handleMouseDown none point s).selectedAnnotationId =
      (s.storedAnnotations.reverse.find?
        (fun a => isPointInBbox point a.bbox)).map Annotation.id := by
  cases hsel : s.selectedAnnotationId with
  | none =>
      cases hscan : s.storedAnnotations.reverse.find?
          (fun a => isPointInBbox point a.bbox) with
      | none => simp [handleMouseDown, hsel, scanSelect, hscan]
      | some ann => simp [handleMouseDown, hsel, scanSelect, hscan]
  | some selId =>
      cases hfind : s.storedAnnotations.find?
          (fun ann => decide (ann.id = selId)) with
      | none =>
          cases hscan : s.storedAnnotations.reverse.find?
              (fun a => isPointInBbox point a.bbox) with
          | none => simp [handleMouseDown, hsel, hfind, scanSelect, hscan]
          | some ann => simp [handleMouseDown, hsel, hfind, scanSelect, hscan]
      | some selAnn =>
          have hh : getResizeHandleAtPoint point selAnn.bbox = none := by
            cases hg : getResizeHandleAtPoint point selAnn.bbox with
            | none => rfl
            | some k =>
                exact absurd ⟨selId, selAnn, hsel, hfind,
                  Or.inl (by simp [hg])⟩ h
          have hin : isPointInBbox point selAnn.bbox = false := by
            cases hg : isPointInBbox point selAnn.bbox with
            | false => rfl
            | true =>
                exact absurd ⟨selId, selAnn, hsel, hfind, Or.inr hg⟩ h
          cases hscan : s.storedAnnotations.reverse.find?
              (fun a => isPointInBbox point a.bbox) with
          | none =>
              simp [handleMouseDown, hsel, hfind, hh, hin, scanSelect, hscan]
          | some ann =>
              simp [handleMouseDown, hsel, hfind, hh, hin, scanSelect, hscan]

/-- Claim C8: the selection outcome of a pointer-down with no active tool
is idempotent: a second pointer-down at the same point leaves the same
annotation selected as the first. -/
theorem C8_selection_idempotent (point : Point) (s : CanvasState) :
    (handleMouseDown none point
        (handleMouseDown none point s)).selectedAnnotationId =
      (handleMouseDown none point s).selectedAnnotationId := by
  have hst := mouseDown_stored point s
  by_cases hk : selKeep point (handleMouseDown none point s)
  · exact mouseDown_sel_keep point _ hk
  · rw [mouseDown_sel_scan point _ hk, hst]
    by_cases hk0 : selKeep point s
    · exfalso
      apply hk
      obtain ⟨selId, selAnn, hsel, hfind, hcase⟩ := hk0
      refine ⟨selId, selAnn, ?_, ?_, hcase⟩
      · rw [mouseDown_sel_keep point s ⟨selId, selAnn, hsel, hfind, hcase⟩]
        exact hsel
      · rw [hst]
        exact hfind
    · exact (mouseDown_sel_scan point s hk0).symm

/-- Claim C4: with no active tool, pointer-down follows exactly this
priority order: a resize-handle hit on the selected annotation starts
Resizing remembering handle and press point; else a point inside the
selected bbox starts Moving remembering the press point; else the
topmost-first scan selects the first annotation whose bbox contains the
point, changing nothing else; else the selection is cleared. -/
theorem C4_mouse_down_priority (point : Point) (s : CanvasState) :
    (∀ selId selectedAnn handle,
      s.selectedAnnotationId = some selId →
      s.storedAnnotations.find? (fun ann => decide (ann.id = selId)) =
        some selectedAnn →
      getResizeHandleAtPoint point selectedAnn.bbox = some handle →
      handleMouseDown none point s =
        { s with isResizing := true, resizeHandle := some handle,
                 startPoint := some point }) ∧
    (∀ selId selectedAnn,
      s.selectedAnnotationId = some selId →
      s.storedAnnotations.find? (fun ann => decide (ann.id = selId)) =
        some selectedAnn →
      getResizeHandleAtPoint point selectedAnn.bbox = none →
      isPointInBbox point selectedAnn.bbox = true →
      handleMouseDown none point s =
        { s with isMoving := true, moveStartPoint := some point }) ∧
    ((∀ selId selectedAnn,
        s.selectedAnnotationId = some selId →
        s.storedAnnotations.find? (fun ann => decide (ann.id = selId)) =
          some selectedAnn →
        getResizeHandleAtPoint point selectedAnn.bbox = none ∧
        isPointInBbox point selectedAnn.bbox = false) →
      (∀ ann, s.storedAnnotations.reverse.find?
          (fun a => isPointInBbox point a.bbox) = some ann →
        handleMouseDown none point s =
          { s with selectedAnnotationId := some ann.id }) ∧
      (s.storedAnnotations.reverse.find?
          (fun a => isPointInBbox point a.bbox) = none →
        handleMouseDown none point s =
          { s with selectedAnnotationId := none })) := by
  refine ⟨?_, ?_, ?_⟩
  · intro selId selectedAnn handle hsel hfind hh
    simp [handleMouseDown, hsel, hfind, hh]
  · intro selId selectedAnn hsel hfind hh hin
    simp [handleMouseDown, hsel, hfind, hh, hin]
  · intro hno
    constructor
    · intro ann hscan
      cases hsel : s.selectedAnnotationId with
      | none => simp [handleMouseDown, hsel, scanSelect, hscan]
      | some selId =>
          cases hfind : s.storedAnnotations.find?
              (fun a => decide (a.id = selId)) with
          | none => simp [handleMouseDown, hsel, hfind, scanSelect, hscan]
          | some selectedAnn =>
              obtain ⟨hh, hin⟩ := hno selId selectedAnn hsel hfind
              simp [handleMouseDown, hsel, hfind, hh, hin, scanSelect,
                hscan]
    · intro hscan
      cases hsel : s.selectedAnnotationId with
      | none => simp [handleMouseDown, hsel, scanSelect, hscan]
      | some selId =>
          cases hfind : s.storedAnnotations.find?
              (fun a => decide (a.id = selId)) with
          | none => simp [handleMouseDown, hsel, hfind, scanSelect, hscan]
          | some selectedAnn =>
              obtain ⟨hh, hin⟩ := hno selId selectedAnn hsel hfind
              simp [handleMouseDown, hsel, hfind, hh, hin, scanSelect,
                hscan]

/-- Witness for claim C4: pointer-down on the north-west handle of the
selected rectangle starts Resizing with that handle. -/
theorem C4_mouse_down_priority_witness :
    handleMouseDown none { x := 10, y := 10 } selState =
      { selState with isResizing := true,
                      resizeHandle := some ResizeHandle.nw,
                      startPoint := some { x := 10, y := 10 } } :=
  (C4_mouse_down_priority { x := 10, y := 10 } selState).1 (annId 1)
    rectAnn ResizeHandle.nw rfl rfl
    (by norm_num [getResizeHandleAtPoint, handleOrder, handleHit,
      handlePos, rectAnn, List.find?])

end Pdfleyer
